import Mathlib

/-!
Shallow embedding of the VNC connection/process lifecycle coordinator of the
VNCClientServer repository: the `CLIVNCConnector` class of
`cli_vnc_connector.py`, the `CLIVNCHandler` class of `cli_vnc_handler.py`, and
the `vnc_connect`/`vnc_disconnect` socket handlers of `web_server.py`.

OS interaction (filesystem lookups, process creation, process polling,
termination) is parameterised by explicit oracles (`FS`, `PB`, `TermBehavior`);
everything else is translated directly from the Python source.  Python's
string comparison (code-point lexicographic, used by `list.sort`) is modelled
over `String.data` since the built-in `String` order does not reduce in the
kernel; the two relations agree.
-/

namespace VNC

/-- Status values sent through `notify_vnc_status` / `emit('vnc_status', ...)`.
`connecting` is the "Connecting..." local status update; the wire statuses are
`connected`, `failed`, `disconnected`. -/
inductive SEvent
  | connecting
  | connected
  | failed
  | disconnected
deriving DecidableEq

/-- Truthiness of an optional string, as Python evaluates `if password:`
(`None` and the empty string are falsy). -/
def optTruthy : Option String → Bool
  | none => false
  | some s => s != ""

/-- Code-point lexicographic order on character lists: the order Python uses
to compare strings in `list.sort`. -/
def lexLeB : List Char → List Char → Bool
  | [], _ => true
  | _ :: _, [] => false
  | a :: as, b :: bs =>
    if a.toNat < b.toNat then true
    else if b.toNat < a.toNat then false
    else lexLeB as bs

/-- Python string `a <= b` (code-point lexicographic). -/
def strLeB (a b : String) : Bool := lexLeB a.data b.data

/-- Python string `a >= b`. -/
def strGeB (a b : String) : Bool := strLeB b a

instance : DecidableRel (fun a b : String => strGeB a b = true) := fun _ _ => inferInstance

/-- Python `matches.sort(reverse=True)`: sort descending in the code-point
lexicographic order. -/
def sortDesc (l : List String) : List String :=
  l.insertionSort (fun a b => strGeB a b = true)

/-- Model of `os.path.basename` for the path separators appearing in this code
base (`/` and `\`): the component after the last separator. -/
def basename (s : String) : String :=
  String.mk (s.data.foldl (fun acc c => if c = '/' ∨ c = '\\' then [] else acc ++ [c]) [])

/-- Filesystem oracle: the answers the OS gives to `shutil.which`,
`os.path.exists` and `glob.glob(pattern, recursive=True)` during one
resolution.  Read-only: resolution performs no mutation. -/
structure FS where
  which : String → Bool
  pathExists : String → Bool
  globMatches : String → List String

/-- Operating-system family, the value of `platform.system()`. -/
inductive Plat
  | windows
  | darwin
  | linux
deriving DecidableEq

/-- One entry of the static Windows client table built inside
`_get_windows_vnc_command`.  `searchPatterns` is empty exactly for the clients
that have no `search_patterns` key; `envVars` is empty exactly for the clients
that have no `env_vars` key. -/
structure WClient where
  name : String
  executable : String
  locations : List String
  searchPatterns : List String
  args : List String
  supportsPassword : Bool
  authMethod : String
  envVars : List (String × Option String)
deriving DecidableEq

/-- Python `(['-password', password] if password else [])`. -/
def pwArgs (flag : String) (password : Option String) : List String :=
  match password with
  | some p => if p != "" then [flag, p] else []
  | none => []

/-- The `search_patterns` list of the TigerVNC Windows entry. -/
def tigerPatterns : List String :=
  ["vncviewer64-*.*.*.exe", "vncviewer-*.*.*.exe",
   "**/vncviewer64-*.*.*.exe", "**/vncviewer-*.*.*.exe"]

/-- The `clients` dictionary of `_get_windows_vnc_command` (source order). -/
def windowsClients (connStr username : String) (password : Option String) :
    List (String × WClient) :=
  [("tightvnc",
    { name := "TightVNC Viewer"
      executable := "tvnviewer.exe"
      locations := ["C:\\Program Files\\TightVNC\\tvnviewer.exe",
                    "C:\\Program Files (x86)\\TightVNC\\tvnviewer.exe"]
      searchPatterns := []
      args := ["-host", connStr] ++ pwArgs "-password" password
      supportsPassword := true
      authMethod := "cli_param"
      envVars := [] }),
   ("realvnc",
    { name := "RealVNC Viewer"
      executable := "vncviewer.exe"
      locations := ["C:\\Program Files\\RealVNC\\VNC Viewer\\vncviewer.exe",
                    "C:\\Program Files (x86)\\RealVNC\\VNC Viewer\\vncviewer.exe"]
      searchPatterns := []
      args := [connStr]
      supportsPassword := false
      authMethod := "manual"
      envVars := [] }),
   ("tigervnc",
    { name := "TigerVNC Viewer"
      executable := "vncviewer*.exe"
      locations := []
      searchPatterns := tigerPatterns
      args := [connStr]
      supportsPassword := true
      authMethod := "env_vars"
      envVars := [("VNC_USERNAME", some username), ("VNC_PASSWORD", password)] }),
   ("ultravnc",
    { name := "UltraVNC"
      executable := "vncviewer.exe"
      locations := ["C:\\Program Files\\uvnc bvba\\UltraVNC\\vncviewer.exe",
                    "C:\\Program Files (x86)\\uvnc bvba\\UltraVNC\\vncviewer.exe",
                    "C:\\Program Files\\UltraVNC\\vncviewer.exe",
                    "C:\\Program Files (x86)\\UltraVNC\\vncviewer.exe"]
      searchPatterns := []
      args := [connStr] ++ pwArgs "-password" password
      supportsPassword := true
      authMethod := "cli_param"
      envVars := [] })]

/-- Model of `_find_tigervnc_executable`: the glob patterns are tried in order;
for the first pattern with matches the match list is sorted descending (Python
`matches.sort(reverse=True)`) and the first element returned.  `os.path.abspath`
is OS path normalisation and is modelled as the identity.  Sorting preserves
emptiness, so testing the sorted list against `[]` is the Python `if matches:`
test on the unsorted one. -/
def findTigervnc (fs : FS) : List String → Option String
  | [] => none
  | p :: ps =>
    match sortDesc (fs.globMatches p) with
    | [] => findTigervnc fs ps
    | m :: _ => some m

/-- How a resolution updates `self.client_env_vars`: leave it unchanged, set it
to `None`, or set it to a concrete variable map. -/
inductive EnvAssign
  | keep
  | clear
  | set (vars : List (String × Option String))
deriving DecidableEq

/-- Result of a successful resolution: the command line handed to
`subprocess.Popen`, the value assigned to `self.client_executable`, and the
assignment performed on `self.client_env_vars`. -/
structure Located where
  cmd : List String
  clientExe : String
  envAssign : EnvAssign
deriving DecidableEq

/-- Model of `_try_client`: glob search patterns take precedence, then
`shutil.which` on the bare executable name (which the code then uses as the
path), then the fixed candidate locations in order.  On success the empty
arguments are filtered out (`[arg for arg in cmd if arg]`). -/
def tryClient (fs : FS) (c : WClient) : Option Located :=
  let path? : Option String :=
    if c.searchPatterns != [] then findTigervnc fs c.searchPatterns
    else if fs.which c.executable then some c.executable
    else c.locations.find? fs.pathExists
  match path? with
  | none => none
  | some p =>
    some { cmd := (p :: c.args).filter (fun a => a != "")
           clientExe := basename p
           envAssign :=
             if c.authMethod == "env_vars" && c.envVars != [] then .set c.envVars
             else .clear }

/-- Dictionary lookup, `clients[k]` guarded by `k in clients`. -/
def lookupClient {α : Type} (clients : List (String × α)) (k : String) : Option α :=
  (clients.find? (fun kv => kv.1 == k)).map Prod.snd

/-- The Windows preference order (`for client_key in [...]`). -/
def winPrefOrder : List String := ["tigervnc", "tightvnc", "realvnc", "ultravnc"]

/-- The fallback loop of `_get_windows_vnc_command`: try each key in order,
return the first `_try_client` success. -/
def firstLocatedW (fs : FS) (clients : List (String × WClient)) :
    List String → Option Located
  | [] => none
  | k :: ks =>
    match lookupClient clients k with
    | none => firstLocatedW fs clients ks
    | some c =>
      match tryClient fs c with
      | some loc => some loc
      | none => firstLocatedW fs clients ks

/-- Model of `_get_windows_vnc_command`: when a truthy `selected_client` names
a key of the table, only that client is tried and its result returned (even
`None`); otherwise the preference-order loop runs. -/
def getWindowsVncCommand (fs : FS) (connStr username : String)
    (password : Option String) (selectedClient : Option String) : Option Located :=
  let clients := windowsClients connStr username password
  match selectedClient with
  | some k =>
    match lookupClient clients k with
    | some c => if k != "" then tryClient fs c
                else firstLocatedW fs clients winPrefOrder
    | none => firstLocatedW fs clients winPrefOrder
  | none => firstLocatedW fs clients winPrefOrder

/-- One entry of the static Linux client table of `_get_linux_vnc_command`. -/
structure LClient where
  name : String
  executable : String
  args : List String
  supportsPassword : Bool
  authMethod : String
  envVars : List (String × Option String)
deriving DecidableEq

/-- The `clients` dictionary of `_get_linux_vnc_command` (source order). -/
def linuxClients (connStr username : String) (password : Option String) :
    List (String × LClient) :=
  [("remmina",
    { name := "Remmina", executable := "remmina"
      args := ["-c", "vnc://" ++ connStr]
      supportsPassword := true, authMethod := "url_based", envVars := [] }),
   ("tigervnc",
    { name := "TigerVNC Viewer", executable := "vncviewer"
      args := [connStr]
      supportsPassword := true, authMethod := "env_vars"
      envVars := [("VNC_USERNAME", some username), ("VNC_PASSWORD", password)] }),
   ("vinagre",
    { name := "Vinagre", executable := "vinagre"
      args := ["vnc://" ++ connStr]
      supportsPassword := true, authMethod := "url_based", envVars := [] })]

/-- The Linux preference order (`for client_key in [...]`). -/
def linuxPrefOrder : List String := ["remmina", "tigervnc", "vinagre"]

/-- The fallback loop of `_get_linux_vnc_command`: the first key in order whose
executable is on the search path wins; the loop body assigns
`client_executable` and `client_env_vars`. -/
def firstLocatedL (fs : FS) (clients : List (String × LClient)) :
    List String → Option Located
  | [] => none
  | k :: ks =>
    match lookupClient clients k with
    | none => firstLocatedL fs clients ks
    | some c =>
      if fs.which c.executable then
        some { cmd := c.executable :: c.args
               clientExe := c.executable
               envAssign :=
                 if c.authMethod == "env_vars" && c.envVars != [] then .set c.envVars
                 else .clear }
      else firstLocatedL fs clients ks

/-- Model of `_get_linux_vnc_command`.  The explicitly-selected branch returns
only when `shutil.which` succeeds (and it assigns `client_executable` but never
writes `client_env_vars`, hence `.keep`); when the selected executable is not
found there is no `return`, so control falls through to the preference-order
loop. -/
def getLinuxVncCommand (fs : FS) (connStr username : String)
    (password : Option String) (selectedClient : Option String) : Option Located :=
  let clients := linuxClients connStr username password
  let fallback := firstLocatedL fs clients linuxPrefOrder
  match selectedClient with
  | some k =>
    match lookupClient clients k with
    | some c =>
      if k != "" then
        if fs.which c.executable then
          some { cmd := c.executable :: c.args
                 clientExe := c.executable
                 envAssign := .keep }
        else fallback
      else fallback
    | none => fallback
  | none => fallback

/-- Model of `_get_macos_vnc_command`: builds a `vnc://` URL (credentials
embedded per Python truthiness of `username` and `password`) and launches it
via `open`; `client_env_vars` is never written here. -/
def getMacosVncCommand (connStr username : String) (password : Option String) :
    Option Located :=
  let url :=
    if username != "" && optTruthy password then
      "vnc://" ++ username ++ ":" ++ password.getD "" ++ "@" ++ connStr
    else if username != "" then
      "vnc://" ++ username ++ "@" ++ connStr
    else
      "vnc://" ++ connStr
  some { cmd := ["open", url], clientExe := "Screen Sharing", envAssign := .keep }

/-- Connection-string construction of `_get_vnc_command` lines 93-99:
`host:port`, overridden to `host` when the port is 5900 and to
`host:(port-5900)` when the port is above 5900. -/
def connectionString (host : String) (port : Nat) : String :=
  let cs := host ++ ":" ++ toString port
  if port == 5900 then host
  else if port > 5900 then host ++ ":" ++ toString (port - 5900)
  else cs

/-- Model of `_get_vnc_command`: build the connection string, then dispatch on
the platform. -/
def getVncCommand (plat : Plat) (fs : FS) (host : String) (port : Nat)
    (username : String) (password : Option String) (selectedClient : Option String) :
    Option Located :=
  let cs := connectionString host port
  match plat with
  | .windows => getWindowsVncCommand fs cs username password selectedClient
  | .darwin => getMacosVncCommand cs username password
  | .linux => getLinuxVncCommand fs cs username password selectedClient

/-- Instance attributes of `CLIVNCConnector` (`__init__` plus the lazily
created `client_env_vars`, whose missing/`None` states are both modelled as
`none`).  A tracked `subprocess.Popen` handle is modelled by its pid. -/
structure ConnState where
  vncProcess : Option Nat
  connected : Bool
  chost : Option String
  cport : Option Nat
  selectedClient : Option String
  clientExecutable : Option String
  clientEnvVars : Option (List (String × Option String))
  fullscreenMode : Bool
deriving DecidableEq

/-- The state `__init__` establishes. -/
def initState : ConnState :=
  { vncProcess := none, connected := false, chost := none, cport := none,
    selectedClient := none, clientExecutable := none, clientEnvVars := none,
    fullscreenMode := false }

/-- OS interactions the connector performs, in order. -/
inductive Act
  | terminate (pid : Nat)
  | wait3 (pid : Nat)
  | kill (pid : Nat)
  | taskkill (exe : String)
  | pkill (exe : String)
  | popen (cmd : List String)
  | printErr (msg : String)
deriving DecidableEq

/-- Termination oracle: whether `self.vnc_process.terminate()` raises (the
surrounding `except` catches it and skips the wait/kill), and whether the
process ends within the 3-second `wait(timeout=3)`. -/
structure TermBehavior where
  terminateRaises : Bool
  gracefulWithin3s : Bool
deriving DecidableEq

/-- The per-platform `vnc_executables` list of `_kill_vnc_processes`. -/
def vncExecutables : Plat → List String
  | .windows => ["tvnviewer.exe", "vncviewer.exe"]
  | .darwin => []
  | .linux => ["remmina", "vncviewer", "vinagre", "krdc"]

/-- Model of `_kill_vnc_processes`: on Windows a `taskkill /F /IM` per name, on
macOS an early return, otherwise a `pkill -f` per name.  Every subprocess
failure is swallowed (`check=False` plus bare `except`), so the sweep is a pure
action list. -/
def killVncProcesses (plat : Plat) : List Act :=
  match plat with
  | .windows => (vncExecutables .windows).map Act.taskkill
  | .darwin => []
  | .linux => (vncExecutables .linux).map Act.pkill

/-- Model of `disconnect`: clear `connected`; if a process is tracked, request
graceful termination, wait up to 3 seconds, force-kill on timeout (all inside a
`try` whose `except` only logs), drop the handle; then run the name-based
sweep.  The function is total: no failure propagates to the caller. -/
def disconnect (plat : Plat) (tb : TermBehavior) (s : ConnState) :
    ConnState × List Act :=
  let procActs :=
    match s.vncProcess with
    | none => []
    | some pid =>
      if tb.terminateRaises then [Act.terminate pid]
      else [Act.terminate pid, Act.wait3 pid] ++
        (if tb.gracefulWithin3s then [] else [Act.kill pid])
  ({ s with connected := false, vncProcess := none },
   procActs ++ killVncProcesses plat)

/-- Launch oracle for one `connect` attempt: whether `subprocess.Popen` raises,
whether the process is still running when the 2-second grace sleep ends
(`self.vnc_process.poll() is None`), and the standard-error text
`communicate()` captures when it is not. -/
structure PB where
  popenRaises : Bool
  aliveAfterGrace : Bool
  stderr : String

/-- Model of `connect`: tear down any existing session, record the request
attributes, resolve a command (the resolution also assigns
`client_executable` / `client_env_vars` on success), launch, sleep through the
2-second grace window, and decide the outcome from `poll()`.  On a premature
exit the captured stderr is printed when non-empty and the dead handle stays in
`vnc_process`.  `newPid` is the pid the OS gives the launched process. -/
def connect (plat : Plat) (fs : FS) (tb : TermBehavior) (pb : PB) (newPid : Nat)
    (host : String) (port : Nat) (username : String) (password : Option String)
    (selectedClient : Option String) (fullscreen : Bool) (s : ConnState) :
    Bool × ConnState × List Act :=
  let s1d := disconnect plat tb s
  let s2 := { s1d.1 with chost := some host, cport := some port,
                         selectedClient := selectedClient, fullscreenMode := fullscreen }
  match getVncCommand plat fs host port username password selectedClient with
  | none => (false, s2, s1d.2)
  | some loc =>
    let s3 := { s2 with clientExecutable := some loc.clientExe,
                        clientEnvVars :=
                          match loc.envAssign with
                          | .keep => s2.clientEnvVars
                          | .clear => none
                          | .set vars => some vars }
    if pb.popenRaises then
      (false, s3, s1d.2 ++ [Act.popen loc.cmd])
    else
      let s4 := { s3 with vncProcess := some newPid }
      if pb.aliveAfterGrace then
        (true, { s4 with connected := true }, s1d.2 ++ [Act.popen loc.cmd])
      else
        (false, s4,
         s1d.2 ++ [Act.popen loc.cmd] ++
           (if pb.stderr != "" then [Act.printErr pb.stderr] else []))

/-- Model of `is_connected`; `exited` is the value of
`self.vnc_process.poll() is not None` at the call. -/
def isConnected (exited : Bool) (s : ConnState) : Bool × ConnState :=
  if !s.connected || s.vncProcess.isNone then (false, s)
  else if exited then (false, { s with connected := false })
  else (true, s)

/-- A sequence of `is_connected` calls, threading the connector state; each
list entry is that call's `poll() is not None` observation. -/
def runIsConnected : List Bool → ConnState → List Bool × ConnState
  | [], s => ([], s)
  | e :: es, s =>
    let r := isConnected e s
    let rs := runIsConnected es r.2
    (r.1 :: rs.1, rs.2)

/-- Status events `_connect_vnc_thread` publishes through
`web_server.notify_vnc_status`, sequentialised: on success `connected`, then —
once the monitor loop of `_monitor_vnc_connection` observes the process gone —
`disconnected`; on failure a single `failed`. -/
def vncThreadEvents (ok : Bool) : List SEvent :=
  if ok then [SEvent.connected, SEvent.disconnected] else [SEvent.failed]

/-- The `all([ip, port, username])` validity test of `handle_vnc_request`
(Python truthiness: a missing/empty ip or username, or a port of 0, fails). -/
def handleVncRequestAccepts (ip : Option String) (port : Nat)
    (username : Option String) : Bool :=
  optTruthy ip && (port != 0) && optTruthy username

/-- Model of `WebServer.handle_vnc_connect` composed with the connect thread,
sequentialised: the `vnc_status` events the web observer receives for one
request.  The socket handler emits `connected`/`failed` immediately from the
callback's boolean (which for valid data is `True` as soon as the connect
thread is started); the thread's real outcome arrives afterwards through
`notify_vnc_status`. -/
def webObserverEvents (plat : Plat) (fs : FS) (tb : TermBehavior) (pb : PB)
    (newPid : Nat) (ip : Option String) (port : Nat) (username : Option String)
    (password : Option String) (selectedClient : Option String)
    (fullscreen : Bool) (s : ConnState) : List SEvent :=
  if handleVncRequestAccepts ip port username then
    SEvent.connected ::
      vncThreadEvents (connect plat fs tb pb newPid (ip.getD "") port
        (username.getD "") password selectedClient fullscreen s).1
  else
    [SEvent.failed]

/-- Model of `disconnect_vnc`: run the connector's `disconnect` (total, so the
`except` branch is unreachable), restore the window, publish `disconnected`,
return `True`. -/
def disconnectVnc (plat : Plat) (tb : TermBehavior) (s : ConnState) :
    Bool × ConnState × List SEvent :=
  let sd := disconnect plat tb s
  (true, sd.1, [SEvent.disconnected])

/-- Shared state for the two threads alive while a `requestConnect` supersedes
a connected session: the connector's `connected`/`vnc_process` pair, the new
connect thread's program counter, whether the old session's monitor thread has
finished, and the published status events. -/
structure CSys where
  sconnected : Bool
  sproc : Option Nat
  t2pc : Nat
  t1done : Bool
  events : List SEvent
deriving DecidableEq

/-- One atomic step of the new `_connect_vnc_thread` (launching pid 2):
pc 0 is the `disconnect()` at the top of `connect`; pc 1 the `Popen` assignment
to `vnc_process`; pc 2 the successful grace-window poll setting
`connected = True`; pc 3 the handler's `notify_vnc_status('connected')`. -/
def t2Act (s : CSys) : CSys :=
  match s.t2pc with
  | 0 => { s with sconnected := false, sproc := none, t2pc := 1 }
  | 1 => { s with sproc := some 2, t2pc := 2 }
  | 2 => { s with sconnected := true, t2pc := 3 }
  | 3 => { s with events := s.events ++ [SEvent.connected], t2pc := 4 }
  | _ => s

/-- One polling iteration of the old session's `_monitor_vnc_connection`: while
`is_connected()` holds it keeps waiting; otherwise it publishes `disconnected`
and finishes.  `alive` tells whether a pid's process is running. -/
def t1Act (alive : Nat → Bool) (s : CSys) : CSys :=
  if s.t1done then s
  else if s.sconnected && (match s.sproc with | some p => alive p | none => false) then s
  else { s with events := s.events ++ [SEvent.disconnected], t1done := true }

/-- Run an interleaving: `true` schedules a step of the new connect thread,
`false` a polling iteration of the old monitor thread. -/
def runSched (alive : Nat → Bool) : List Bool → CSys → CSys
  | [], s => s
  | step :: rest, s =>
    runSched alive rest (if step then t2Act s else t1Act alive s)

/-! Concrete test fixtures: filesystems, oracles and states used to
instantiate the theorems below on explicit inputs. -/

/-- A host with no VNC client installed at all. -/
def fsNone : FS :=
  { which := fun _ => false, pathExists := fun _ => false, globMatches := fun _ => [] }

/-- A Linux host where only Remmina is on the search path. -/
def fsRemminaOnly : FS :=
  { which := fun e => e == "remmina", pathExists := fun _ => false,
    globMatches := fun _ => [] }

/-- A Windows host whose first TigerVNC glob pattern yields exactly the two
match names of the spec's tie-break example. -/
def fsTiger : FS :=
  { which := fun _ => false, pathExists := fun _ => false,
    globMatches := fun p =>
      if p == "vncviewer64-*.*.*.exe" then ["vncviewer-1.2.0", "vncviewer64-1.13.1"]
      else [] }

/-- Termination behaviour of a process that obeys `terminate()` promptly. -/
def tbQuiet : TermBehavior := { terminateRaises := false, gracefulWithin3s := true }

/-- Termination behaviour of a process that survives the 3-second wait. -/
def tbHard : TermBehavior := { terminateRaises := false, gracefulWithin3s := false }

/-- Launch behaviour of a client that starts and stays up past the grace window. -/
def pbAlive : PB := { popenRaises := false, aliveAfterGrace := true, stderr := "" }

/-- Launch behaviour of a client that exits inside the grace window leaving
stderr output. -/
def pbDead : PB := { popenRaises := false, aliveAfterGrace := false, stderr := "connection refused" }

/-- The TightVNC descriptor of `windowsClients "h" "u" none`, spelled out. -/
def tightvncH : WClient :=
  { name := "TightVNC Viewer"
    executable := "tvnviewer.exe"
    locations := ["C:\\Program Files\\TightVNC\\tvnviewer.exe",
                  "C:\\Program Files (x86)\\TightVNC\\tvnviewer.exe"]
    searchPatterns := []
    args := ["-host", "h"]
    supportsPassword := true
    authMethod := "cli_param"
    envVars := [] }

/-- The resolution result on `fsRemminaOnly` for host "h", port 5900. -/
def locRemmina : Located :=
  { cmd := ["remmina", "-c", "vnc://h"], clientExe := "remmina", envAssign := .clear }

/-- A connector state tracking pid 1. -/
def sTracked : ConnState := { initState with vncProcess := some 1 }

/-- A connector state tracking pid 5. -/
def sTracked5 : ConnState := { initState with vncProcess := some 5 }

/-- A connector state after a successful launch of pid 3. -/
def sLive : ConnState := { initState with connected := true, vncProcess := some 3 }

/-- The shared state at the instant a `requestConnect` supersedes a connected
session: pid 1 connected, the new connect thread about to run, the old monitor
thread polling. -/
def superseded : CSys :=
  { sconnected := true, sproc := some 1, t2pc := 0, t1done := false, events := [] }

/-! Helper lemmas about the code-point order and descending sort. -/

theorem lexLeB_refl : ∀ x : List Char, lexLeB x x = true
  | [] => rfl
  | a :: as => by simp [lexLeB, lexLeB_refl as]

theorem lexLeB_total : ∀ x y : List Char, lexLeB x y = true ∨ lexLeB y x = true
  | [], _ => Or.inl rfl
  | _ :: _, [] => Or.inr rfl
  | a :: as, b :: bs => by
    rcases Nat.lt_trichotomy a.toNat b.toNat with h | h | h
    · exact Or.inl (by simp [lexLeB, h])
    · rcases lexLeB_total as bs with ih | ih
      · exact Or.inl (by simp [lexLeB, h, ih])
      · exact Or.inr (by simp [lexLeB, h.symm, ih])
    · exact Or.inr (by simp [lexLeB, h])

theorem lexLeB_trans : ∀ x y z : List Char,
    lexLeB x y = true → lexLeB y z = true → lexLeB x z = true
  | [], _, _, _, _ => rfl
  | _ :: _, [], _, h1, _ => by simp [lexLeB] at h1
  | _ :: _, _ :: _, [], _, h2 => by simp [lexLeB] at h2
  | a :: as, b :: bs, c :: cs, h1, h2 => by
    simp only [lexLeB] at h1 h2 ⊢
    rcases Nat.lt_trichotomy a.toNat b.toNat with hab | hab | hab <;>
      rcases Nat.lt_trichotomy b.toNat c.toNat with hbc | hbc | hbc
    · simp [Nat.lt_trans hab hbc]
    · simp [hbc ▸ hab]
    · simp [Nat.lt_asymm hbc, hbc] at h2
    · simp [hab ▸ hbc]
    · simp [hab, hbc] at h1 h2 ⊢
      exact lexLeB_trans as bs cs h1 h2
    · simp [Nat.lt_asymm hbc, hbc] at h2
    · simp [Nat.lt_asymm hab, hab] at h1
    · simp [Nat.lt_asymm hab, hab] at h1
    · simp [Nat.lt_asymm hab, hab] at h1

instance : IsTotal String (fun a b => strGeB a b = true) :=
  ⟨fun a b => (lexLeB_total b.data a.data).elim Or.inl Or.inr⟩

instance : IsTrans String (fun a b => strGeB a b = true) :=
  ⟨fun a b c hab hbc => lexLeB_trans c.data b.data a.data hbc hab⟩

theorem sortDesc_eq_nil_iff (l : List String) : sortDesc l = [] ↔ l = [] := by
  constructor
  · intro h
    have hperm : (sortDesc l).Perm l :=
      List.perm_insertionSort (fun a b : String => strGeB a b = true) l
    rw [h] at hperm
    exact hperm.symm.eq_nil
  · intro h
    subst h
    rfl

theorem sortDesc_head_greatest (l : List String) (m : String) (rest : List String)
    (h : sortDesc l = m :: rest) : ∀ x ∈ l, strLeB x m = true := by
  intro x hx
  have hperm : (sortDesc l).Perm l :=
    List.perm_insertionSort (fun a b : String => strGeB a b = true) l
  have hmem : x ∈ sortDesc l := hperm.mem_iff.mpr hx
  rw [h] at hmem
  rcases List.mem_cons.mp hmem with rfl | hmem2
  · exact lexLeB_refl x.data
  · have hs : List.Sorted (fun a b : String => strGeB a b = true) (sortDesc l) :=
      List.sorted_insertionSort (fun a b : String => strGeB a b = true) l
    rw [h] at hs
    exact List.rel_of_sorted_cons hs x hmem2

theorem sortDesc_head_mem (l : List String) (m : String) (rest : List String)
    (h : sortDesc l = m :: rest) : m ∈ l := by
  have hperm : (sortDesc l).Perm l :=
    List.perm_insertionSort (fun a b : String => strGeB a b = true) l
  rw [h] at hperm
  exact hperm.mem_iff.mp (List.mem_cons_self m rest)

/-! Helper lemmas about `disconnect` and the preference-order loops. -/

theorem popen_not_mem_disconnect (plat : Plat) (tb : TermBehavior) (s : ConnState)
    (cmd : List String) : Act.popen cmd ∉ (disconnect plat tb s).2 := by
  obtain ⟨tr, gw⟩ := tb
  unfold disconnect
  rcases hv : s.vncProcess with - | pid <;> cases plat <;> cases tr <;> cases gw <;>
    simp [killVncProcesses, vncExecutables]

theorem firstLocatedW_first_success (fs : FS) (clients : List (String × WClient)) :
    ∀ (ks1 : List String) (k : String) (ks2 : List String) (c : WClient) (loc : Located),
    (∀ k2 ∈ ks1, ∀ c2, lookupClient clients k2 = some c2 → tryClient fs c2 = none) →
    lookupClient clients k = some c → tryClient fs c = some loc →
    firstLocatedW fs clients (ks1 ++ k :: ks2) = some loc
  | [], k, ks2, c, loc, _, hlook, htry => by
    simp [firstLocatedW, hlook, htry]
  | a :: as, k, ks2, c, loc, hfail, hlook, htry => by
    have hrec := firstLocatedW_first_success fs clients as k ks2 c loc
      (fun k2 hk2 => hfail k2 (List.mem_cons_of_mem a hk2)) hlook htry
    cases ha : lookupClient clients a with
    | none => simpa [firstLocatedW, ha] using hrec
    | some c2 =>
      have h2 : tryClient fs c2 = none := hfail a (List.mem_cons_self a as) c2 ha
      simpa [firstLocatedW, ha, h2] using hrec

theorem firstLocatedL_first_success (fs : FS) (clients : List (String × LClient)) :
    ∀ (ks1 : List String) (k : String) (ks2 : List String) (c : LClient),
    (∀ k2 ∈ ks1, ∀ c2, lookupClient clients k2 = some c2 → fs.which c2.executable = false) →
    lookupClient clients k = some c → fs.which c.executable = true →
    firstLocatedL fs clients (ks1 ++ k :: ks2) =
      some { cmd := c.executable :: c.args
             clientExe := c.executable
             envAssign :=
               if c.authMethod == "env_vars" && c.envVars != [] then .set c.envVars
               else .clear }
  | [], k, ks2, c, _, hlook, hwhich => by
    simp [firstLocatedL, hlook, hwhich]
  | a :: as, k, ks2, c, hfail, hlook, hwhich => by
    have hrec := firstLocatedL_first_success fs clients as k ks2 c
      (fun k2 hk2 => hfail k2 (List.mem_cons_of_mem a hk2)) hlook hwhich
    cases ha : lookupClient clients a with
    | none => simpa [firstLocatedL, ha] using hrec
    | some c2 =>
      have h2 : fs.which c2.executable = false := hfail a (List.mem_cons_self a as) c2 ha
      simpa [firstLocatedL, ha, h2] using hrec

/-! Helper lemmas about `is_connected`. -/

theorem isConnected_quiet (e : Bool) (s : ConnState)
    (h : s.connected = false ∨ s.vncProcess = none) : isConnected e s = (false, s) := by
  rcases h with h | h <;> simp [isConnected, h]

theorem runIsConnected_quiet (polls : List Bool) (s : ConnState)
    (h : s.connected = false ∨ s.vncProcess = none) :
    ∀ b ∈ (runIsConnected polls s).1, b = false := by
  induction polls with
  | nil => intro b hb; simp [runIsConnected] at hb
  | cons e es ih =>
    intro b hb
    simp only [runIsConnected, isConnected_quiet e s h] at hb
    rcases List.mem_cons.mp hb with rfl | hb2
    · rfl
    · exact ih b hb2

theorem isConnected_exit_quiet (s : ConnState) :
    (isConnected true s).2.connected = false ∨ (isConnected true s).2.vncProcess = none := by
  by_cases h1 : s.connected = false
  · rw [isConnected_quiet true s (Or.inl h1)]
    exact Or.inl h1
  · by_cases h2 : s.vncProcess = none
    · rw [isConnected_quiet true s (Or.inr h2)]
      exact Or.inr h2
    · have hc : s.connected = true := by
        revert h1; cases s.connected <;> simp
      cases hv : s.vncProcess with
      | none => exact absurd hv h2
      | some p =>
        left
        simp [isConnected, hc, hv]

/-- C1: the web observer does not receive exactly one terminal status event
per accepted request.  `handle_vnc_connect` emits `vnc_status: connected` from
the callback's return value, which for valid data is `True` as soon as the
connect thread is started, before the attempt resolves.  Hence a valid request
on a host with no installed client yields `connected` then `failed`, and a
successful attempt yields two `connected` events before `disconnected` —
instead of the intended single `failed`, or single `connected` followed by a
single `disconnected`. -/
theorem handle_vnc_connect_emits_premature_connected :
    webObserverEvents .linux fsNone tbQuiet pbAlive 7 (some "192.168.1.5") 5900
      (some "alice") none none false initState = [SEvent.connected, SEvent.failed] ∧
    webObserverEvents .linux fsRemminaOnly tbQuiet pbAlive 7 (some "192.168.1.5") 5900
      (some "alice") none none false initState =
      [SEvent.connected, SEvent.connected, SEvent.disconnected] :=
  ⟨by decide, by decide⟩

/-- C2 counterexample: on Linux, a request that explicitly selects the known
client `vinagre` while `vinagre` is not installed does not fail: the selected
branch of `_get_linux_vnc_command` has no `return` on the not-found path, so
resolution falls back to Remmina, `connect` launches it and returns `True` —
refuting the claim that such a request yields failure with no process
started. -/
theorem linux_selected_unavailable_falls_back :
    fsRemminaOnly.which "vinagre" = false ∧
    (lookupClient (linuxClients "192.168.1.5:1" "alice" none) "vinagre").isSome = true ∧
    (connect .linux fsRemminaOnly tbQuiet pbAlive 7 "192.168.1.5" 5901 "alice" none
      (some "vinagre") false initState).1 = true ∧
    Act.popen ["remmina", "-c", "vnc://192.168.1.5:1"] ∈
      (connect .linux fsRemminaOnly tbQuiet pbAlive 7 "192.168.1.5" 5901 "alice" none
        (some "vinagre") false initState).2.2 :=
  ⟨rfl, rfl, by decide, by decide⟩

/-- C2 (amended): whenever command resolution yields nothing — which covers
every request for which no known client is installed, and on Windows a request
that explicitly selects a known but unavailable client (on Linux such a
selection falls back to the registry order instead) — `connect` returns
failure, the attempt is surfaced as `failed`, and `Popen` is never invoked. -/
theorem unresolved_selection_fails_no_popen :
    (∀ (plat : Plat) (fs : FS) (tb : TermBehavior) (pb : PB) (newPid : Nat)
       (host : String) (port : Nat) (username : String) (password : Option String)
       (selectedClient : Option String) (fullscreen : Bool) (s : ConnState),
       getVncCommand plat fs host port username password selectedClient = none →
       (connect plat fs tb pb newPid host port username password selectedClient
          fullscreen s).1 = false ∧
       (∀ cmd, Act.popen cmd ∉ (connect plat fs tb pb newPid host port username password
          selectedClient fullscreen s).2.2) ∧
       vncThreadEvents (connect plat fs tb pb newPid host port username password
          selectedClient fullscreen s).1 = [SEvent.failed]) ∧
    (∀ (fs : FS) (connStr username : String) (password : Option String) (k : String)
       (c : WClient),
       lookupClient (windowsClients connStr username password) k = some c →
       k ≠ "" → tryClient fs c = none →
       getWindowsVncCommand fs connStr username password (some k) = none) := by
  constructor
  · intro plat fs tb pb newPid host port username password selectedClient fullscreen s hres
    refine ⟨by simp [connect, hres], ?_, by simp [connect, hres, vncThreadEvents]⟩
    intro cmd
    have htr : (connect plat fs tb pb newPid host port username password selectedClient
        fullscreen s).2.2 = (disconnect plat tb s).2 := by
      simp [connect, hres]
    rw [htr]
    exact popen_not_mem_disconnect plat tb s cmd
  · intro fs connStr username password k c hlook hk htry
    have hb : (k != "") = true := bne_iff_ne.mpr hk
    simp [getWindowsVncCommand, hlook, hb, htry]

/-- C2 witness: on a Linux host with nothing installed, a plain request
resolves to nothing and `connect` fails. -/
theorem unresolved_selection_fails_no_popen_witness :
    getVncCommand .linux fsNone "192.168.1.5" 5900 "alice" none none = none ∧
    (connect .linux fsNone tbQuiet pbAlive 7 "192.168.1.5" 5900 "alice" none none
      false initState).1 = false :=
  ⟨by decide, (unresolved_selection_fails_no_popen.1 .linux fsNone tbQuiet pbAlive 7
    "192.168.1.5" 5900 "alice" none none false initState (by decide)).1⟩

/-- C3: when the launched client process exits inside the 2-second grace
window, `connect` returns failure (so the handler publishes a single `failed`,
never `disconnected`), and the captured stderr is printed when non-empty;
conversely `connect` returns success only when the process is still running
after the grace window. -/
theorem grace_window_exit_is_failed :
    (∀ (plat : Plat) (fs : FS) (tb : TermBehavior) (pb : PB) (newPid : Nat)
       (host : String) (port : Nat) (username : String) (password : Option String)
       (selectedClient : Option String) (fullscreen : Bool) (s : ConnState)
       (loc : Located),
       getVncCommand plat fs host port username password selectedClient = some loc →
       pb.popenRaises = false → pb.aliveAfterGrace = false →
       (connect plat fs tb pb newPid host port username password selectedClient
          fullscreen s).1 = false ∧
       (pb.stderr ≠ "" → Act.printErr pb.stderr ∈ (connect plat fs tb pb newPid host port
          username password selectedClient fullscreen s).2.2) ∧
       vncThreadEvents (connect plat fs tb pb newPid host port username password
          selectedClient fullscreen s).1 = [SEvent.failed] ∧
       SEvent.disconnected ∉ vncThreadEvents (connect plat fs tb pb newPid host port
          username password selectedClient fullscreen s).1) ∧
    (∀ (plat : Plat) (fs : FS) (tb : TermBehavior) (pb : PB) (newPid : Nat)
       (host : String) (port : Nat) (username : String) (password : Option String)
       (selectedClient : Option String) (fullscreen : Bool) (s : ConnState),
       (connect plat fs tb pb newPid host port username password selectedClient
          fullscreen s).1 = true → pb.aliveAfterGrace = true) := by
  constructor
  · intro plat fs tb pb newPid host port username password selectedClient fullscreen s loc
      hres hpr hag
    refine ⟨by simp [connect, hres, hpr, hag], ?_,
      by simp [connect, hres, hpr, hag, vncThreadEvents],
      by simp [connect, hres, hpr, hag, vncThreadEvents]⟩
    intro hs
    have hb : (pb.stderr != "") = true := bne_iff_ne.mpr hs
    simp [connect, hres, hpr, hag, hb]
  · intro plat fs tb pb newPid host port username password selectedClient fullscreen s htrue
    cases hres : getVncCommand plat fs host port username password selectedClient with
    | none => simp [connect, hres] at htrue
    | some loc =>
      cases hpr : pb.popenRaises with
      | true => simp [connect, hres, hpr] at htrue
      | false =>
        cases hag : pb.aliveAfterGrace with
        | true => rfl
        | false => simp [connect, hres, hpr, hag] at htrue

/-- C3 witness: with only Remmina installed and a client that dies inside the
grace window, `connect` reports failure. -/
theorem grace_window_exit_is_failed_witness :
    getVncCommand .linux fsRemminaOnly "h" 5900 "alice" none none = some locRemmina ∧
    pbDead.popenRaises = false ∧ pbDead.aliveAfterGrace = false ∧
    (connect .linux fsRemminaOnly tbQuiet pbDead 7 "h" 5900 "alice" none none
      false initState).1 = false :=
  ⟨by decide, rfl, rfl,
    (grace_window_exit_is_failed.1 .linux fsRemminaOnly tbQuiet pbDead 7 "h" 5900 "alice"
      none none false initState locRemmina (by decide) rfl rfl).1⟩

/-- C4 counterexample: on Linux a request explicitly selecting the known but
uninstalled client `vinagre` does not report unavailable; the resolution falls
back and returns the Remmina command — refuting the no-fallback claim for the
Linux path. -/
theorem linux_selected_no_fallback_refuted :
    fsRemminaOnly.which "vinagre" = false ∧
    getLinuxVncCommand fsRemminaOnly "192.168.1.5:1" "alice" none (some "vinagre") =
      some { cmd := ["remmina", "-c", "vnc://192.168.1.5:1"], clientExe := "remmina",
             envAssign := .clear } :=
  ⟨rfl, by decide⟩

/-- C4 (amended): on Windows an explicitly selected known client is the only
descriptor attempted and its locate result is returned as is, with no
fallback; on Linux an explicitly selected known and installed client is the
only one used, but an uninstalled selection falls back to the preference
order; with no identifier, descriptors are tried in the fixed preference order
and the first successfully located one is returned (on both platforms). -/
theorem selected_client_resolution :
    (∀ (fs : FS) (connStr username : String) (password : Option String) (k : String)
       (c : WClient), k ≠ "" →
       lookupClient (windowsClients connStr username password) k = some c →
       getWindowsVncCommand fs connStr username password (some k) = tryClient fs c) ∧
    (∀ (fs : FS) (connStr username : String) (password : Option String)
       (ks1 : List String) (k : String) (ks2 : List String) (c : WClient) (loc : Located),
       winPrefOrder = ks1 ++ k :: ks2 →
       (∀ k2 ∈ ks1, ∀ c2, lookupClient (windowsClients connStr username password) k2 =
          some c2 → tryClient fs c2 = none) →
       lookupClient (windowsClients connStr username password) k = some c →
       tryClient fs c = some loc →
       getWindowsVncCommand fs connStr username password none = some loc) ∧
    (∀ (fs : FS) (connStr username : String) (password : Option String)
       (ks1 : List String) (k : String) (ks2 : List String) (c : LClient),
       linuxPrefOrder = ks1 ++ k :: ks2 →
       (∀ k2 ∈ ks1, ∀ c2, lookupClient (linuxClients connStr username password) k2 =
          some c2 → fs.which c2.executable = false) →
       lookupClient (linuxClients connStr username password) k = some c →
       fs.which c.executable = true →
       getLinuxVncCommand fs connStr username password none =
         some { cmd := c.executable :: c.args
                clientExe := c.executable
                envAssign :=
                  if c.authMethod == "env_vars" && c.envVars != [] then .set c.envVars
                  else .clear }) ∧
    (∀ (fs : FS) (connStr username : String) (password : Option String) (k : String)
       (c : LClient), k ≠ "" →
       lookupClient (linuxClients connStr username password) k = some c →
       fs.which c.executable = true →
       getLinuxVncCommand fs connStr username password (some k) =
         some { cmd := c.executable :: c.args, clientExe := c.executable,
                envAssign := .keep }) := by
  refine ⟨?_, ?_, ?_, ?_⟩
  · intro fs connStr username password k c hk hlook
    have hb : (k != "") = true := bne_iff_ne.mpr hk
    simp [getWindowsVncCommand, hlook, hb]
  · intro fs connStr username password ks1 k ks2 c loc horder hfail hlook htry
    show firstLocatedW fs (windowsClients connStr username password) winPrefOrder = some loc
    rw [horder]
    exact firstLocatedW_first_success fs (windowsClients connStr username password)
      ks1 k ks2 c loc hfail hlook htry
  · intro fs connStr username password ks1 k ks2 c horder hfail hlook hwhich
    show firstLocatedL fs (linuxClients connStr username password) linuxPrefOrder = some _
    rw [horder]
    exact firstLocatedL_first_success fs (linuxClients connStr username password)
      ks1 k ks2 c hfail hlook hwhich
  · intro fs connStr username password k c hk hlook hwhich
    have hb : (k != "") = true := bne_iff_ne.mpr hk
    simp [getLinuxVncCommand, hlook, hb, hwhich]

/-- C4 witness: on Windows, explicitly selecting TightVNC on a host with
nothing installed attempts only that descriptor and reports unavailable. -/
theorem selected_client_resolution_witness :
    ("tightvnc" : String) ≠ "" ∧
    lookupClient (windowsClients "h" "u" none) "tightvnc" = some tightvncH ∧
    getWindowsVncCommand fsNone "h" "u" none (some "tightvnc") = tryClient fsNone tightvncH ∧
    tryClient fsNone tightvncH = none :=
  ⟨by decide, by decide,
    selected_client_resolution.1 fsNone "h" "u" none "tightvnc" tightvncH (by decide)
      (by decide),
    by decide⟩

/-- C5: disconnecting a tracked process first requests graceful termination,
then (when `terminate` does not raise) waits up to 3 seconds, force-kills
exactly when the wait times out, and performs the name-based sweep; the
function is total (OS failures modelled by `TermBehavior` never propagate) and
always ends with no tracked handle and the connected flag false. -/
theorem disconnect_terminates_waits_kills_sweeps (plat : Plat) (tb : TermBehavior)
    (s : ConnState) (pid : Nat) (hp : s.vncProcess = some pid) :
    (disconnect plat tb s).1.vncProcess = none ∧
    (disconnect plat tb s).1.connected = false ∧
    (disconnect plat tb s).2.head? = some (Act.terminate pid) ∧
    (tb.terminateRaises = false → Act.wait3 pid ∈ (disconnect plat tb s).2) ∧
    (Act.kill pid ∈ (disconnect plat tb s).2 ↔
      tb.terminateRaises = false ∧ tb.gracefulWithin3s = false) ∧
    (∀ a ∈ killVncProcesses plat, a ∈ (disconnect plat tb s).2) := by
  obtain ⟨tr, gw⟩ := tb
  unfold disconnect
  rw [hp]
  cases tr <;> cases gw <;> cases plat <;>
    simp [killVncProcesses, vncExecutables]

/-- C5 witness: a Linux disconnect of pid 5 whose process ignores the
3-second wait ends untracked and includes the force-kill. -/
theorem disconnect_terminates_waits_kills_sweeps_witness :
    sTracked5.vncProcess = some 5 ∧
    (disconnect .linux tbHard sTracked5).1.connected = false ∧
    Act.kill 5 ∈ (disconnect .linux tbHard sTracked5).2 :=
  ⟨rfl,
   (disconnect_terminates_waits_kills_sweeps .linux tbHard sTracked5 5 rfl).2.1,
   ((disconnect_terminates_waits_kills_sweeps .linux tbHard sTracked5 5 rfl).2.2.2.2.1).mpr
     ⟨rfl, rfl⟩⟩

/-- C6 counterexample: in the interleaving where the superseding connect
thread runs to completion before the old session's monitor thread polls again,
the new session's `connected` event is published while no `disconnected` event
for the old session has been published (and the old monitor keeps looping on
the new session's liveness) — refuting the claim that the old session's
Disconnected event precedes every event of the new session. -/
theorem old_disconnected_event_can_trail_new_connected :
    (runSched (fun _ => true) [true, true, true, true, false] superseded).events =
      [SEvent.connected] ∧
    (runSched (fun _ => true) [true, true, true, true, false] superseded).t1done = false :=
  ⟨rfl, rfl⟩

/-- C6 (amended): `connect` synchronously completes the full disconnect
sequence — terminating the tracked process, with no `Popen` among the teardown
actions — before any launch of the new session, and afterwards the connector
tracks either no process or only the newly launched one, so at most one child
process is tracked at a time; the old session's `disconnected` event, however,
is published asynchronously by its monitor thread and is not ordered before
the new session's events. -/
theorem connect_teardown_before_launch (plat : Plat) (fs : FS) (tb : TermBehavior)
    (pb : PB) (newPid : Nat) (host : String) (port : Nat) (username : String)
    (password : Option String) (selectedClient : Option String) (fullscreen : Bool)
    (s : ConnState) (pid : Nat) (hp : s.vncProcess = some pid) :
    (∃ rest, (connect plat fs tb pb newPid host port username password selectedClient
       fullscreen s).2.2 = (disconnect plat tb s).2 ++ rest) ∧
    Act.terminate pid ∈ (disconnect plat tb s).2 ∧
    (∀ cmd, Act.popen cmd ∉ (disconnect plat tb s).2) ∧
    ((connect plat fs tb pb newPid host port username password selectedClient
        fullscreen s).2.1.vncProcess = none ∨
     (connect plat fs tb pb newPid host port username password selectedClient
        fullscreen s).2.1.vncProcess = some newPid) := by
  refine ⟨?_, ?_, fun cmd => popen_not_mem_disconnect plat tb s cmd, ?_⟩
  · cases hres : getVncCommand plat fs host port username password selectedClient with
    | none => exact ⟨[], by simp [connect, hres]⟩
    | some loc =>
      cases hpr : pb.popenRaises with
      | true => exact ⟨[Act.popen loc.cmd], by simp [connect, hres, hpr]⟩
      | false =>
        cases hag : pb.aliveAfterGrace with
        | true => exact ⟨[Act.popen loc.cmd], by simp [connect, hres, hpr, hag]⟩
        | false =>
          exact ⟨[Act.popen loc.cmd] ++
            (if pb.stderr != "" then [Act.printErr pb.stderr] else []),
            by simp [connect, hres, hpr, hag]⟩
  · obtain ⟨tr, gw⟩ := tb
    unfold disconnect
    rw [hp]
    cases tr <;> cases gw <;> simp
  · cases hres : getVncCommand plat fs host port username password selectedClient with
    | none => exact Or.inl (by simp [connect, hres, disconnect])
    | some loc =>
      cases hpr : pb.popenRaises with
      | true => exact Or.inl (by simp [connect, hres, hpr, disconnect])
      | false =>
        cases hag : pb.aliveAfterGrace with
        | true => exact Or.inr (by simp [connect, hres, hpr, hag])
        | false => exact Or.inr (by simp [connect, hres, hpr, hag])

/-- C6 witness: superseding a session tracking pid 1 terminates pid 1 during
the teardown prefix. -/
theorem connect_teardown_before_launch_witness :
    sTracked.vncProcess = some 1 ∧
    Act.terminate 1 ∈ (disconnect .linux tbQuiet sTracked).2 :=
  ⟨rfl,
   (connect_teardown_before_launch .linux fsRemminaOnly tbQuiet pbAlive 2 "h" 5900
     "alice" none none false sTracked 1 rfl).2.1⟩

/-- C7: when a glob pattern of the locator yields matches, the returned
executable is a match of that pattern and is greatest among its matches in the
code-point lexicographic order Python's `sort(reverse=True)` uses; in
particular, given the matches `vncviewer-1.2.0` and `vncviewer64-1.13.1` the
locator selects `vncviewer64-1.13.1`. -/
theorem glob_locator_picks_lex_greatest :
    (∀ (fs : FS) (p : String) (ps : List String), fs.globMatches p ≠ [] →
       ∃ m, findTigervnc fs (p :: ps) = some m ∧ m ∈ fs.globMatches p ∧
         ∀ x ∈ fs.globMatches p, strLeB x m = true) ∧
    findTigervnc fsTiger tigerPatterns = some "vncviewer64-1.13.1" := by
  constructor
  · intro fs p ps hne
    cases hs : sortDesc (fs.globMatches p) with
    | nil => exact absurd ((sortDesc_eq_nil_iff (fs.globMatches p)).mp hs) hne
    | cons m rest =>
      exact ⟨m, by simp [findTigervnc, hs],
        sortDesc_head_mem (fs.globMatches p) m rest hs,
        sortDesc_head_greatest (fs.globMatches p) m rest hs⟩
  · decide

/-- C7 witness: the first TigerVNC pattern of `fsTiger` has matches, and the
locator finds an executable there. -/
theorem glob_locator_picks_lex_greatest_witness :
    fsTiger.globMatches "vncviewer64-*.*.*.exe" ≠ [] ∧
    (findTigervnc fsTiger ("vncviewer64-*.*.*.exe" :: ["vncviewer-*.*.*.exe",
      "**/vncviewer64-*.*.*.exe", "**/vncviewer-*.*.*.exe"])).isSome = true := by
  refine ⟨by decide, ?_⟩
  obtain ⟨m, hm, -, -⟩ := glob_locator_picks_lex_greatest.1 fsTiger
    "vncviewer64-*.*.*.exe"
    ["vncviewer-*.*.*.exe", "**/vncviewer64-*.*.*.exe", "**/vncviewer-*.*.*.exe"]
    (by decide)
  rw [hm]
  rfl

/-- C8: `disconnect_vnc` called with no active session returns success, leaves
the connector state exactly as it was (not connected, nothing tracked), and
publishes no `failed` or `connected` event. -/
theorem disconnect_idle_noop (plat : Plat) (tb : TermBehavior) (s : ConnState)
    (hp : s.vncProcess = none) (hc : s.connected = false) :
    (disconnectVnc plat tb s).1 = true ∧
    (disconnectVnc plat tb s).2.1 = s ∧
    SEvent.failed ∉ (disconnectVnc plat tb s).2.2 ∧
    SEvent.connected ∉ (disconnectVnc plat tb s).2.2 := by
  obtain ⟨vp, cn, f3, f4, f5, f6, f7, f8⟩ := s
  have hvp : vp = none := hp
  have hcn : cn = false := hc
  subst hvp
  subst hcn
  exact ⟨rfl, rfl, by simp [disconnectVnc], by simp [disconnectVnc]⟩

/-- C8 witness: in the initial state, `disconnect_vnc` leaves the state
unchanged. -/
theorem disconnect_idle_noop_witness :
    initState.vncProcess = none ∧ initState.connected = false ∧
    (disconnectVnc .linux tbQuiet initState).2.1 = initState :=
  ⟨rfl, rfl, (disconnect_idle_noop .linux tbQuiet initState rfl rfl).2.1⟩

/-- C9: for any host and positive port, the connection string handed to the
client is the bare host at port 5900, `host:(port-5900)` above 5900, and
`host:port` below 5900. -/
theorem connection_string_cases (host : String) (port : Nat) (hpos : 0 < port) :
    (port = 5900 → connectionString host port = host) ∧
    (port > 5900 → connectionString host port = host ++ ":" ++ toString (port - 5900)) ∧
    (port < 5900 → connectionString host port = host ++ ":" ++ toString port) := by
  have hkeep : 0 < port := hpos
  refine ⟨?_, ?_, ?_⟩
  · intro h
    subst h
    rfl
  · intro h
    have h1 : (port == 5900) = false := by
      simp only [beq_eq_false_iff_ne, ne_eq]
      omega
    simp [connectionString, h1, h]
  · intro h
    have h1 : (port == 5900) = false := by
      simp only [beq_eq_false_iff_ne, ne_eq]
      omega
    have h2 : ¬port > 5900 := by omega
    simp [connectionString, h1, h2]

/-- C9 witness: port 5901 becomes display 1. -/
theorem connection_string_cases_witness :
    (0 : Nat) < 5901 ∧
    connectionString "h" 5901 = "h" ++ ":" ++ toString (5901 - 5900 : Nat) :=
  ⟨by decide, (connection_string_cases "h" 5901 (by decide)).2.1 (by decide)⟩

/-- C10: `is_connected` returns true only when the connected flag is set (set
only by a successful launch), a process is tracked and the poll shows it
running; a call observing the exit returns false and clears the flag, and
every later `is_connected` call returns false; moreover the connector state
after `connect` has the flag set only when resolution succeeded and the
process outlived the grace window. -/
theorem is_connected_exit_latch :
    (∀ (e : Bool) (s : ConnState), (isConnected e s).1 = true →
       s.connected = true ∧ s.vncProcess.isSome = true ∧ e = false) ∧
    (∀ s : ConnState, (isConnected true s).1 = false) ∧
    (∀ (s : ConnState) (polls : List Bool),
       ∀ b ∈ (runIsConnected polls ((isConnected true s).2)).1, b = false) ∧
    (∀ (plat : Plat) (fs : FS) (tb : TermBehavior) (pb : PB) (newPid : Nat)
       (host : String) (port : Nat) (username : String) (password : Option String)
       (selectedClient : Option String) (fullscreen : Bool) (s : ConnState),
       (connect plat fs tb pb newPid host port username password selectedClient
          fullscreen s).2.1.connected = true →
       pb.aliveAfterGrace = true ∧
       (getVncCommand plat fs host port username password selectedClient).isSome = true) := by
  refine ⟨?_, ?_, ?_, ?_⟩
  · intro e s h
    by_cases hc : s.connected = false
    · rw [isConnected_quiet e s (Or.inl hc)] at h
      simp at h
    · by_cases hv : s.vncProcess = none
      · rw [isConnected_quiet e s (Or.inr hv)] at h
        simp at h
      · have hc2 : s.connected = true := by
          revert hc; cases s.connected <;> simp
        cases hvp : s.vncProcess with
        | none => exact absurd hvp hv
        | some p =>
          cases e with
          | true => simp [isConnected, hc2, hvp] at h
          | false => exact ⟨hc2, by simp [hvp], rfl⟩
  · intro s
    by_cases hc : s.connected = false
    · rw [isConnected_quiet true s (Or.inl hc)]
    · by_cases hv : s.vncProcess = none
      · rw [isConnected_quiet true s (Or.inr hv)]
      · have hc2 : s.connected = true := by
          revert hc; cases s.connected <;> simp
        cases hvp : s.vncProcess with
        | none => exact absurd hvp hv
        | some p => simp [isConnected, hc2, hvp]
  · intro s polls
    exact runIsConnected_quiet polls ((isConnected true s).2) (isConnected_exit_quiet s)
  · intro plat fs tb pb newPid host port username password selectedClient fullscreen s h
    cases hres : getVncCommand plat fs host port username password selectedClient with
    | none => simp [connect, hres, disconnect] at h
    | some loc =>
      cases hpr : pb.popenRaises with
      | true => simp [connect, hres, hpr, disconnect] at h
      | false =>
        cases hag : pb.aliveAfterGrace with
        | true => exact ⟨rfl, by simp [hres]⟩
        | false => simp [connect, hres, hpr, hag, disconnect] at h

/-- C10 witness: in a live state a poll showing the process running yields
true and the flag is indeed set. -/
theorem is_connected_exit_latch_witness :
    (isConnected false sLive).1 = true ∧ sLive.connected = true :=
  ⟨rfl, (is_connected_exit_latch.1 false sLive rfl).1⟩

end VNC
